import Mathlib

/-!
Shallow embedding of the tic-tac-toe gRPC server (`src/server/src/main.rs`).

The server keeps one `SharedGame` behind a mutex; each connection is handled
by `play`, which (1) seats the connection in a free player slot or rejects it,
(2) loops over inbound `Move` messages, validating and applying each one and
broadcasting the updated state, and (3) on stream end removes the player's
slot and resets the game.  The mutex serializes all mutations, so the
concurrent system is modelled as a sequence of atomic operations (`Op`) on
the `SharedGame` state.  Channel sends are modelled as emitted
`(channel id, GameState)` pairs.
-/

/-- A connected client: its symbol and its outbound channel
(`PlayerConnection` in the source; the mpsc sender is modelled by a channel
identifier). -/
structure PlayerConnection where
  symbol : String
  tx : Nat
deriving DecidableEq, Repr

/-- The protobuf `GameState` message as the server constructs it. -/
structure GameState where
  board : List String
  next_player : String
  status : String
  your_symbol : String
deriving DecidableEq, Repr

/-- The protobuf `Move` message (`player_id` is sent by the client but the
server never reads it; `position` is an `i32`). -/
structure Move where
  player_id : String
  position : Int
deriving DecidableEq, Repr

/-- The shared game state (`SharedGame` in the source). -/
structure SharedGame where
  board : List String
  next_player : String
  status : String
  player_x : Option PlayerConnection
  player_o : Option PlayerConnection
deriving DecidableEq, Repr

/-- `SharedGame::new`: empty board, X to move, waiting, no players. -/
def SharedGame.new : SharedGame :=
  { board := List.replicate 9 ""
    next_player := "X"
    status := "waiting"
    player_x := none
    player_o := none }

/-- `SharedGame::is_full`: every cell non-empty. -/
def SharedGame.is_full (g : SharedGame) : Bool :=
  g.board.all (fun cell => !cell.isEmpty)

/-- The 8 winning triples, in the source's fixed scan order. -/
def lines : List (Nat × Nat × Nat) :=
  [(0, 1, 2), (3, 4, 5), (6, 7, 8), (0, 3, 6), (1, 4, 7), (2, 5, 8), (0, 4, 8), (2, 4, 6)]

/-- Board cell access (`board[i]`; boards always have length 9, so the
default value is never used on reachable states). -/
def cell (b : List String) (i : Nat) : String := b.getD i ""

/-- One triple check of `check_winner`:
`!b[a].is_empty() && b[a] == b[b_idx] && b[b_idx] == b[c]`. -/
def lineWins (b : List String) (t : Nat × Nat × Nat) : Bool :=
  !(cell b t.1).isEmpty && (cell b t.1 == cell b t.2.1) && (cell b t.2.1 == cell b t.2.2)

/-- `check_winner` on a raw board: first triple (in scan order) whose three
cells are equal and non-empty; returns that symbol. -/
def winner (b : List String) : Option String :=
  (lines.find? (fun t => lineWins b t)).map (fun t => cell b t.1)

/-- `SharedGame::check_winner`. -/
def SharedGame.check_winner (g : SharedGame) : Option String := winner g.board

/-- Rust `mv.position as usize` on a 64-bit platform: the `i32` value is
reduced modulo 2^64, so every negative input lands far above 9. -/
def usizeOfI32 (p : Int) : Nat := (p % 18446744073709551616).toNat

/-- The distinct validation failures of the move-handling loop, one per
logged-and-skipped `continue` branch (game not ongoing / not your turn /
position out of range / cell already filled). -/
inductive MoveError where
  | notOngoing
  | notYourTurn
  | invalidPosition
  | cellOccupied
deriving DecidableEq, Repr

/-- The update template: `GameState` built from the live fields with
`your_symbol` left blank, to be filled per recipient. -/
def mkUpdate (g : SharedGame) : GameState :=
  { board := g.board
    next_player := g.next_player
    status := g.status
    your_symbol := "" }

/-- One `if let Some(ref player) = slot` send: clone the template, overwrite
`your_symbol` with the slot's own symbol, send on the slot's channel. -/
def slotSend (slot : Option PlayerConnection) (u : GameState) : List (Nat × GameState) :=
  match slot with
  | some p => [(p.tx, { u with your_symbol := p.symbol })]
  | none => []

/-- The broadcast performed after a successful move (and, with identical
code, after the second player is seated): send the personalized update to
player X then player O. -/
def broadcast (g : SharedGame) : List (Nat × GameState) :=
  slotSend g.player_x (mkUpdate g) ++ slotSend g.player_o (mkUpdate g)

/-- The mutation part of a validated move: write the symbol into the cell,
then set the status from `check_winner` / `is_full`, otherwise flip the
turn. -/
def applyOutcome (g : SharedGame) (symbol_clone : String) (pos : Nat) : SharedGame :=
  let g1 : SharedGame := { g with board := g.board.set pos symbol_clone }
  match g1.check_winner with
  | some w => { g1 with status := w ++ "_win" }
  | none =>
    if g1.is_full then { g1 with status := "draw" }
    else { g1 with next_player := if symbol_clone == "X" then "O" else "X" }

/-- The body of the inbound-message loop for one `Move` (`Ok(mv)` arm of
`play`): the four validation checks in source order, each failing check
logging and `continue`-ing (no state change, no sends), then the mutation
and the broadcast.  Returns the new state, the emitted messages, and which
validation branch fired (if any). -/
def handleMove (g : SharedGame) (symbol_clone : String) (mv : Move) :
    SharedGame × List (Nat × GameState) × Option MoveError :=
  if g.status ≠ "ongoing" then (g, [], some MoveError.notOngoing)
  else if g.next_player ≠ symbol_clone then (g, [], some MoveError.notYourTurn)
  else
    let pos := usizeOfI32 mv.position
    if pos ≥ 9 then (g, [], some MoveError.invalidPosition)
    else if !(cell g.board pos).isEmpty then (g, [], some MoveError.cellOccupied)
    else
      let g2 := applyOutcome g symbol_clone pos
      (g2, broadcast g2, none)

/-- The seating block at the top of `play`: assign X if `player_x` is free
(pushing the initial snapshot to the new connection), else O if `player_o`
is free (switching to "ongoing" and broadcasting to both), else fail with
`resource_exhausted` (`none`) before any `GameState` is delivered. -/
def seatPlayer (g : SharedGame) (tx : Nat) :
    Option (SharedGame × String × List (Nat × GameState)) :=
  if g.player_x.isNone then
    let g' : SharedGame := { g with player_x := some ⟨"X", tx⟩ }
    some (g', "X", [(tx, { mkUpdate g' with your_symbol := "X" })])
  else if g.player_o.isNone then
    let g' : SharedGame := { g with player_o := some ⟨"O", tx⟩, status := "ongoing" }
    some (g', "O", broadcast g')
  else
    none

/-- The session state after a seating attempt: unchanged when the attempt
was rejected (the handler returns early without touching the state). -/
def seatStep (g : SharedGame) (tx : Nat) : SharedGame :=
  match seatPlayer g tx with
  | some r => r.1
  | none => g

/-- The teardown block at the end of `play`'s spawned task: clear whichever
slot carries the departing connection's symbol, then reset board, turn and
status. -/
def disconnect (g : SharedGame) (symbol_clone : String) : SharedGame :=
  let g1 : SharedGame :=
    if g.player_x.map PlayerConnection.symbol = some symbol_clone
    then { g with player_x := none } else g
  let g2 : SharedGame :=
    if g1.player_o.map PlayerConnection.symbol = some symbol_clone
    then { g1 with player_o := none } else g1
  { g2 with board := List.replicate 9 "", next_player := "X", status := "waiting" }

/-- One serialized operation on the shared state (the mutex total-orders
them): a seating attempt, one inbound move on a connection whose assigned
symbol is `sym`, or a disconnect. -/
inductive Op where
  | seat (tx : Nat)
  | move (sym : String) (mv : Move)
  | disc (sym : String)
deriving DecidableEq, Repr

/-- Effect of one operation on the shared state. -/
def step (g : SharedGame) : Op → SharedGame
  | Op.seat tx => seatStep g tx
  | Op.move sym mv => (handleMove g sym mv).1
  | Op.disc sym => disconnect g sym

/-- The state reached from the freshly created game by a sequence of
serialized operations. -/
def reach (ops : List Op) : SharedGame := ops.foldl step SharedGame.new

/-- Structural session invariant maintained by every operation: the board
always has 9 cells; whenever a slot is free the session is waiting with a
fresh board and X to move; the X slot only ever holds symbol "X" and the O
slot only "O". -/
def SessionInv (g : SharedGame) : Prop :=
  g.board.length = 9 ∧
  ((g.player_x = none ∨ g.player_o = none) →
    g.status = "waiting" ∧ g.board = List.replicate 9 "" ∧ g.next_player = "X") ∧
  (∀ p, g.player_x = some p → p.symbol = "X") ∧
  (∀ p, g.player_o = some p → p.symbol = "O")

/-- Sample state: both players seated, game ongoing, empty board, X to move. -/
def gOng : SharedGame :=
  { board := List.replicate 9 ""
    next_player := "X"
    status := "ongoing"
    player_x := some ⟨"X", 0⟩
    player_o := some ⟨"O", 1⟩ }

/-- Sample state: as `gOng` but with cell 4 already taken by X and O to move. -/
def gMid : SharedGame :=
  { gOng with board := (List.replicate 9 "").set 4 "X", next_player := "O" }

/-- Sample terminal state: X has won on the top row. -/
def gTerm : SharedGame :=
  { gOng with
      board := [ "X", "X", "X", "O", "O", "", "", "", "" ]
      status := "X_win" }

/-- Validation as the spec words it (section 4.2), with the in-range check
read literally over the integer position: used to compare the source's
check order against the spec's. -/
def specValidationError (g : SharedGame) (sym : String) (mv : Move) : Option MoveError :=
  if g.status ≠ "ongoing" then some MoveError.notOngoing
  else if sym ≠ g.next_player then some MoveError.notYourTurn
  else if ¬(0 ≤ mv.position ∧ mv.position < 9) then some MoveError.invalidPosition
  else if ¬(cell g.board mv.position.toNat).isEmpty then some MoveError.cellOccupied
  else none

/-- The success contract of a validated move, as claimed: the cell is
written with the mover's symbol, and exactly one of win / draw / turn-flip
happens, with the turn changing only in the flip case. -/
def MoveSuccessContract (g : SharedGame) (sym : String) (mv : Move) : Prop :=
  let pos := usizeOfI32 mv.position
  let g' := (handleMove g sym mv).1
  g'.board = g.board.set pos sym ∧
  cell g'.board pos = sym ∧
  ((∃ w, winner g'.board = some w ∧ w = sym ∧ g'.status = w ++ "_win" ∧
      g'.next_player = g.next_player) ∨
   (winner g'.board = none ∧ g'.is_full = true ∧ g'.status = "draw" ∧
      g'.next_player = g.next_player) ∨
   (winner g'.board = none ∧ g'.is_full = false ∧ g'.status = "ongoing" ∧
      g'.next_player = (if sym == "X" then "O" else "X") ∧
      g'.next_player ≠ g.next_player))

lemma cell_set_self (b : List String) (i : Nat) (s : String) (h : i < b.length) :
    cell (b.set i s) i = s := by
  simp [cell, List.getD_eq_getElem?_getD, List.getElem?_set_self h]

lemma cell_set_ne (b : List String) (i j : Nat) (s : String) (h : i ≠ j) :
    cell (b.set i s) j = cell b j := by
  simp [cell, List.getD_eq_getElem?_getD, List.getElem?_set_ne h]

lemma isEmpty_false_iff (s : String) : s.isEmpty = false ↔ s ≠ "" := by
  rw [Bool.eq_false_iff]
  exact not_congr (String.isEmpty_iff s)

lemma lineWins_mk_iff (b : List String) (a i c : Nat) :
    lineWins b (a, i, c) = true ↔
      (cell b a ≠ "" ∧ cell b a = cell b i ∧ cell b i = cell b c) := by
  simp [lineWins, isEmpty_false_iff, and_assoc]

lemma line_case (b : List String) (pos : Nat) (s : String) (a i c : Nat)
    (ha : a < b.length) (hi : i < b.length) (hc : c < b.length)
    (hnot : lineWins b (a, i, c) = false)
    (hw : lineWins (b.set pos s) (a, i, c) = true) :
    cell (b.set pos s) a = s := by
  rw [lineWins_mk_iff] at hw
  obtain ⟨hne, h12, h23⟩ := hw
  by_cases hpa : pos = a
  · subst hpa; exact cell_set_self b pos s ha
  · by_cases hpi : pos = i
    · subst hpi; rw [h12]; exact cell_set_self b pos s hi
    · by_cases hpc : pos = c
      · subst hpc; rw [h12, h23]; exact cell_set_self b pos s hc
      · exfalso
        rw [cell_set_ne b pos a s hpa] at hne h12
        rw [cell_set_ne b pos i s hpi] at h12 h23
        rw [cell_set_ne b pos c s hpc] at h23
        have htrue : lineWins b (a, i, c) = true :=
          (lineWins_mk_iff b a i c).2 ⟨hne, h12, h23⟩
        rw [hnot] at htrue
        simp at htrue

lemma winner_set_eq_mover (b : List String) (hb : b.length = 9) (pos : Nat) (s : String)
    (hnone : winner b = none) (w : String)
    (hw : winner (b.set pos s) = some w) : w = s := by
  unfold winner at hnone hw
  have hfind0 : List.find? (fun t => lineWins b t) lines = none := by
    rcases h0 : List.find? (fun t => lineWins b t) lines with _ | t0
    · rfl
    · rw [h0] at hnone; simp at hnone
  have hnot : ∀ t' ∈ lines, lineWins b t' = false := by
    intro t' ht'
    have := List.find?_eq_none.1 hfind0 t' ht'
    simpa using this
  rcases hfind : List.find? (fun t => lineWins (b.set pos s) t) lines with _ | t
  · rw [hfind] at hw; simp at hw
  · rw [hfind] at hw
    simp only [Option.map_some', Option.some.injEq] at hw
    have hpt : lineWins (b.set pos s) t = true := List.find?_some hfind
    have hmem : t ∈ lines := List.mem_of_find?_eq_some hfind
    have h9 : ∀ k : Nat, k < 9 → k < b.length := by omega
    simp only [lines, List.mem_cons, List.not_mem_nil, or_false] at hmem
    rcases hmem with h | h | h | h | h | h | h | h <;> subst h <;> rw [← hw] <;>
      exact line_case b pos s _ _ _ (h9 _ (by norm_num)) (h9 _ (by norm_num))
        (h9 _ (by norm_num)) (hnot _ (by simp [lines])) hpt

lemma handleMove_not_ongoing (g : SharedGame) (sym : String) (mv : Move)
    (h : g.status ≠ "ongoing") :
    handleMove g sym mv = (g, [], some MoveError.notOngoing) := by
  simp [handleMove, h]

lemma handleMove_wrong_turn (g : SharedGame) (sym : String) (mv : Move)
    (h1 : g.status = "ongoing") (h2 : g.next_player ≠ sym) :
    handleMove g sym mv = (g, [], some MoveError.notYourTurn) := by
  simp [handleMove, h1, h2]

lemma handleMove_bad_pos (g : SharedGame) (sym : String) (mv : Move)
    (h1 : g.status = "ongoing") (h2 : g.next_player = sym)
    (h3 : usizeOfI32 mv.position ≥ 9) :
    handleMove g sym mv = (g, [], some MoveError.invalidPosition) := by
  simp [handleMove, h1, h2, h3]

lemma handleMove_occupied (g : SharedGame) (sym : String) (mv : Move)
    (h1 : g.status = "ongoing") (h2 : g.next_player = sym)
    (h3 : usizeOfI32 mv.position < 9)
    (h4 : (cell g.board (usizeOfI32 mv.position)).isEmpty = false) :
    handleMove g sym mv = (g, [], some MoveError.cellOccupied) := by
  have h3' : ¬(usizeOfI32 mv.position ≥ 9) := by omega
  simp [handleMove, h1, h2, h3', h4]

lemma handleMove_ok (g : SharedGame) (sym : String) (mv : Move)
    (h1 : g.status = "ongoing") (h2 : g.next_player = sym)
    (h3 : usizeOfI32 mv.position < 9)
    (h4 : (cell g.board (usizeOfI32 mv.position)).isEmpty = true) :
    handleMove g sym mv =
      (applyOutcome g sym (usizeOfI32 mv.position),
       broadcast (applyOutcome g sym (usizeOfI32 mv.position)), none) := by
  have h3' : ¬(usizeOfI32 mv.position ≥ 9) := by omega
  simp [handleMove, h1, h2, h3', h4]

lemma handleMove_error_frame (g : SharedGame) (sym : String) (mv : Move)
    (h : (handleMove g sym mv).2.2 ≠ none) :
    (handleMove g sym mv).1 = g ∧ (handleMove g sym mv).2.1 = [] := by
  by_cases h1 : g.status = "ongoing"
  · by_cases h2 : g.next_player = sym
    · by_cases h3 : usizeOfI32 mv.position ≥ 9
      · rw [handleMove_bad_pos g sym mv h1 h2 h3]; exact ⟨rfl, rfl⟩
      · by_cases h4 : (cell g.board (usizeOfI32 mv.position)).isEmpty = true
        · rw [handleMove_ok g sym mv h1 h2 (by omega) h4] at h
          simp at h
        · rw [handleMove_occupied g sym mv h1 h2 (by omega)
            (by simpa using h4)]
          exact ⟨rfl, rfl⟩
    · rw [handleMove_wrong_turn g sym mv h1 h2]; exact ⟨rfl, rfl⟩
  · rw [handleMove_not_ongoing g sym mv h1]; exact ⟨rfl, rfl⟩

lemma handleMove_success_cases (g : SharedGame) (sym : String) (mv : Move)
    (h : (handleMove g sym mv).2.2 = none) :
    g.status = "ongoing" ∧ g.next_player = sym ∧ usizeOfI32 mv.position < 9 ∧
    (cell g.board (usizeOfI32 mv.position)).isEmpty = true ∧
    handleMove g sym mv =
      (applyOutcome g sym (usizeOfI32 mv.position),
       broadcast (applyOutcome g sym (usizeOfI32 mv.position)), none) := by
  by_cases h1 : g.status = "ongoing"
  · by_cases h2 : g.next_player = sym
    · by_cases h3 : usizeOfI32 mv.position ≥ 9
      · rw [handleMove_bad_pos g sym mv h1 h2 h3] at h; simp at h
      · by_cases h4 : (cell g.board (usizeOfI32 mv.position)).isEmpty = true
        · exact ⟨h1, h2, by omega, h4, handleMove_ok g sym mv h1 h2 (by omega) h4⟩
        · rw [handleMove_occupied g sym mv h1 h2 (by omega) (by simpa using h4)] at h
          simp at h
    · rw [handleMove_wrong_turn g sym mv h1 h2] at h; simp at h
  · rw [handleMove_not_ongoing g sym mv h1] at h; simp at h

lemma usize_ge_iff (p : Int) (hlo : -(2 ^ 31) ≤ p) (hhi : p < 2 ^ 31) :
    usizeOfI32 p ≥ 9 ↔ ¬(0 ≤ p ∧ p < 9) := by
  unfold usizeOfI32
  omega

lemma usize_eq_toNat (p : Int) (h0 : 0 ≤ p) (h9 : p < 9) :
    usizeOfI32 p = p.toNat := by
  unfold usizeOfI32
  omega

lemma applyOutcome_slots (g : SharedGame) (sym : String) (pos : Nat) :
    (applyOutcome g sym pos).player_x = g.player_x ∧
    (applyOutcome g sym pos).player_o = g.player_o ∧
    (applyOutcome g sym pos).board = g.board.set pos sym := by
  simp only [applyOutcome]
  split
  · exact ⟨rfl, rfl, rfl⟩
  · split
    · exact ⟨rfl, rfl, rfl⟩
    · exact ⟨rfl, rfl, rfl⟩

lemma handleMove_slots (g : SharedGame) (sym : String) (mv : Move) :
    (handleMove g sym mv).1.player_x = g.player_x ∧
    (handleMove g sym mv).1.player_o = g.player_o ∧
    (handleMove g sym mv).1.board.length = g.board.length := by
  by_cases h : (handleMove g sym mv).2.2 = none
  · obtain ⟨_, _, _, _, heq⟩ := handleMove_success_cases g sym mv h
    obtain ⟨hx, ho, hb⟩ := applyOutcome_slots g sym (usizeOfI32 mv.position)
    rw [heq]
    exact ⟨hx, ho, by rw [hb]; simp⟩
  · obtain ⟨h1, _⟩ := handleMove_error_frame g sym mv h
    rw [h1]
    exact ⟨rfl, rfl, rfl⟩

lemma disconnect_spec (g : SharedGame) (sym : String) :
    (disconnect g sym).status = "waiting" ∧
    (disconnect g sym).board = List.replicate 9 "" ∧
    (disconnect g sym).next_player = "X" ∧
    (disconnect g sym).player_x =
      (if g.player_x.map PlayerConnection.symbol = some sym then none else g.player_x) ∧
    (disconnect g sym).player_o =
      (if g.player_o.map PlayerConnection.symbol = some sym then none else g.player_o) := by
  unfold disconnect
  by_cases hx : g.player_x.map PlayerConnection.symbol = some sym
  · by_cases ho : g.player_o.map PlayerConnection.symbol = some sym
    · simp [hx, ho]
    · simp [hx, ho]
  · by_cases ho : g.player_o.map PlayerConnection.symbol = some sym
    · simp [hx, ho]
    · simp [hx, ho]

lemma sessionInv_new : SessionInv SharedGame.new := by
  refine ⟨by simp [SharedGame.new], fun _ => ⟨rfl, rfl, rfl⟩, ?_, ?_⟩ <;>
    intro p hp <;> simp [SharedGame.new] at hp

lemma sessionInv_seat (g : SharedGame) (tx : Nat) (h : SessionInv g) :
    SessionInv (seatStep g tx) := by
  obtain ⟨hlen, hfree, hxs, hos⟩ := h
  unfold seatStep seatPlayer
  by_cases hx : g.player_x.isNone
  · simp only [hx, if_true]
    refine ⟨hlen, ?_, ?_, hos⟩
    · intro h'
      rcases h' with h' | h'
      · simp at h'
      · exact hfree (Or.inr h')
    · intro p hp
      simp at hp
      rw [← hp]
  · simp only [hx, if_false, Bool.false_eq_true]
    by_cases ho : g.player_o.isNone
    · simp only [ho, if_true]
      refine ⟨hlen, ?_, hxs, ?_⟩
      · intro h'
        rcases h' with h' | h'
        · exact absurd (Option.isNone_iff_eq_none.2 h') hx
        · simp at h'
      · intro p hp
        simp at hp
        rw [← hp]
    · simp only [ho, if_false, Bool.false_eq_true]
      exact ⟨hlen, hfree, hxs, hos⟩

lemma sessionInv_move (g : SharedGame) (sym : String) (mv : Move) (h : SessionInv g) :
    SessionInv ((handleMove g sym mv).1) := by
  obtain ⟨hlen, hfree, hxs, hos⟩ := h
  by_cases hslot : g.player_x = none ∨ g.player_o = none
  · have hw := hfree hslot
    have hno : g.status ≠ "ongoing" := by rw [hw.1]; decide
    rw [handleMove_not_ongoing g sym mv hno]
    exact ⟨hlen, hfree, hxs, hos⟩
  · obtain ⟨hx', ho', hlen'⟩ := handleMove_slots g sym mv
    push_neg at hslot
    refine ⟨by rw [hlen']; exact hlen, ?_, ?_, ?_⟩
    · intro hc
      rcases hc with hc | hc
      · rw [hx'] at hc; exact absurd hc hslot.1
      · rw [ho'] at hc; exact absurd hc hslot.2
    · intro p hp; rw [hx'] at hp; exact hxs p hp
    · intro p hp; rw [ho'] at hp; exact hos p hp

lemma sessionInv_disc (g : SharedGame) (sym : String) (h : SessionInv g) :
    SessionInv (disconnect g sym) := by
  obtain ⟨hlen, hfree, hxs, hos⟩ := h
  obtain ⟨h1, h2, h3, h4, h5⟩ := disconnect_spec g sym
  refine ⟨by rw [h2]; simp, fun _ => ⟨h1, h2, h3⟩, ?_, ?_⟩
  · intro p hp
    rw [h4] at hp
    split at hp
    · cases hp
    · exact hxs p hp
  · intro p hp
    rw [h5] at hp
    split at hp
    · cases hp
    · exact hos p hp

lemma sessionInv_step (g : SharedGame) (op : Op) (h : SessionInv g) :
    SessionInv (step g op) := by
  cases op with
  | seat tx => exact sessionInv_seat g tx h
  | move sym mv => exact sessionInv_move g sym mv h
  | disc sym => exact sessionInv_disc g sym h

lemma sessionInv_foldl (ops : List Op) (g : SharedGame) (h : SessionInv g) :
    SessionInv (ops.foldl step g) := by
  induction ops generalizing g with
  | nil => exact h
  | cons op rest ih => exact ih (step g op) (sessionInv_step g op h)

lemma sessionInv_reach (ops : List Op) : SessionInv (reach ops) :=
  sessionInv_foldl ops SharedGame.new sessionInv_new

/-- C1 counterexample: in `gOng` it is X's turn, so O's move fails
validation (not your turn), yet the number of outbound messages is 0, not
1 — no error-tagged snapshot is sent to the offending sender. -/
theorem c1_validation_error_message_cex :
    (handleMove gOng "O" ⟨"O", 4⟩).2.2 = some MoveError.notYourTurn ∧
    ¬((handleMove gOng "O" ⟨"O", 4⟩).2.1.length = 1) := by decide

/-- C1 amended: every `apply_move` call that fails validation sends no
snapshot to anyone — the failure is only logged server-side and the
offending sender receives nothing. -/
theorem c1_validation_error_no_message (g : SharedGame) (sym : String) (mv : Move)
    (e : MoveError) (h : (handleMove g sym mv).2.2 = some e) :
    (handleMove g sym mv).2.1 = [] :=
  (handleMove_error_frame g sym mv (by rw [h]; simp)).2

/-- C1 witness: concrete instantiation of the amended theorem. -/
theorem c1_validation_error_no_message_witness :
    (handleMove gOng "O" ⟨"O", 0⟩).2.2 = some MoveError.notYourTurn ∧
    (handleMove gOng "O" ⟨"O", 0⟩).2.1 = [] :=
  ⟨by decide,
   c1_validation_error_no_message gOng "O" ⟨"O", 0⟩ MoveError.notYourTurn (by decide)⟩

/-- C2 counterexample: X disconnects from the two-player session `gOng`;
the O slot is NOT cleared — both slots are not empty afterwards. -/
theorem c2_disconnect_other_slot_cex :
    (disconnect gOng "X").player_o ≠ none := by decide

/-- C2 amended: a disconnect resets status to waiting, the board to
empty and the turn to X, and empties exactly the slot(s) whose symbol
matches the departing connection; the other participant's slot is left
unchanged (not cleared). -/
theorem c2_disconnect_resets (g : SharedGame) (sym : String) :
    (disconnect g sym).status = "waiting" ∧
    (disconnect g sym).board = List.replicate 9 "" ∧
    (disconnect g sym).next_player = "X" ∧
    (disconnect g sym).player_x =
      (if g.player_x.map PlayerConnection.symbol = some sym then none else g.player_x) ∧
    (disconnect g sym).player_o =
      (if g.player_o.map PlayerConnection.symbol = some sym then none else g.player_o) :=
  disconnect_spec g sym

/-- C4: a broadcast over a fully seated session delivers exactly one
snapshot per slot, on that slot's own channel, carrying that slot's own
symbol, with board, next player and status identical across the two
recipients and taken from the same state; the two snapshots are distinct
values whenever the two symbols differ (no shared mutated template). -/
theorem c4_broadcast_per_recipient (g : SharedGame) (px po : PlayerConnection)
    (hx : g.player_x = some px) (ho : g.player_o = some po) :
    broadcast g =
      [(px.tx, ⟨g.board, g.next_player, g.status, px.symbol⟩),
       (po.tx, ⟨g.board, g.next_player, g.status, po.symbol⟩)] ∧
    (px.symbol ≠ po.symbol →
      (⟨g.board, g.next_player, g.status, px.symbol⟩ : GameState) ≠
        ⟨g.board, g.next_player, g.status, po.symbol⟩) := by
  constructor
  · simp [broadcast, slotSend, mkUpdate, hx, ho]
  · intro hne hc
    apply hne
    have := congrArg GameState.your_symbol hc
    simpa using this

/-- C4 witness: concrete instantiation on `gOng`. -/
theorem c4_broadcast_per_recipient_witness :
    gOng.player_x = some ⟨"X", 0⟩ ∧ gOng.player_o = some ⟨"O", 1⟩ ∧
    broadcast gOng =
      [(0, ⟨gOng.board, gOng.next_player, gOng.status, "X"⟩),
       (1, ⟨gOng.board, gOng.next_player, gOng.status, "O"⟩)] ∧
    (⟨gOng.board, gOng.next_player, gOng.status, "X"⟩ : GameState) ≠
      ⟨gOng.board, gOng.next_player, gOng.status, "O"⟩ := by
  have h := c4_broadcast_per_recipient gOng ⟨"X", 0⟩ ⟨"O", 1⟩ rfl rfl
  exact ⟨rfl, rfl, h.1, h.2 (by decide)⟩

/-- C5 counterexample: position 8 lies outside `[0,8)`, yet the move
passes validation (no error): the code's valid range is `[0,9)`, not
`[0,8)`. -/
theorem c5_position_range_cex :
    ¬((0 : Int) ≤ 8 ∧ (8 : Int) < 8) ∧
    (handleMove gOng "X" ⟨"X", 8⟩).2.2 = none := by decide

/-- C5 amended: for any position in i32 range, validation applies the four
checks in the fixed source order — (a) status not ongoing, (b) wrong turn,
(c) position outside `[0,9)` (after the `as usize` cast, so negatives are
out of range too), (d) cell occupied — the first failing check wins and
each check yields its own distinct error. -/
theorem c5_validation_order (g : SharedGame) (sym : String) (mv : Move)
    (hlo : -(2 ^ 31) ≤ mv.position) (hhi : mv.position < 2 ^ 31) :
    (handleMove g sym mv).2.2 = specValidationError g sym mv := by
  unfold specValidationError
  by_cases h1 : g.status = "ongoing"
  · by_cases h2 : g.next_player = sym
    · by_cases h3 : usizeOfI32 mv.position ≥ 9
      · have hout := (usize_ge_iff mv.position hlo hhi).1 h3
        rw [handleMove_bad_pos g sym mv h1 h2 h3]
        simp [h1, h2, hout]
      · have hin : 0 ≤ mv.position ∧ mv.position < 9 := by
          by_contra hc
          exact h3 ((usize_ge_iff mv.position hlo hhi).2 hc)
        have hnat : usizeOfI32 mv.position = mv.position.toNat :=
          usize_eq_toNat mv.position hin.1 hin.2
        by_cases h4 : (cell g.board (usizeOfI32 mv.position)).isEmpty = true
        · rw [handleMove_ok g sym mv h1 h2 (by omega) h4]
          rw [hnat] at h4
          simp [h1, h2, hin, h4]
        · have h4' : (cell g.board (usizeOfI32 mv.position)).isEmpty = false := by
            simpa using h4
          rw [handleMove_occupied g sym mv h1 h2 (by omega) h4']
          rw [hnat] at h4'
          simp [h1, h2, hin, h4']
    · have h2' : sym ≠ g.next_player := fun hc => h2 hc.symm
      rw [handleMove_wrong_turn g sym mv h1 h2]
      simp [h1, h2']
  · rw [handleMove_not_ongoing g sym mv h1]
    simp [h1]

/-- C5 witness: concrete instantiation at position 8. -/
theorem c5_validation_order_witness :
    (-(2 ^ 31) ≤ (8 : Int) ∧ (8 : Int) < 2 ^ 31) ∧
    (handleMove gOng "X" ⟨"X", 8⟩).2.2 = specValidationError gOng "X" ⟨"X", 8⟩ :=
  ⟨by decide, c5_validation_order gOng "X" ⟨"X", 8⟩ (by decide) (by decide)⟩

/-- C6: every `apply_move` call that fails any validation check leaves the
entire session state unchanged (board, turn, status and slots). -/
theorem c6_failed_move_state_unchanged (g : SharedGame) (sym : String) (mv : Move)
    (e : MoveError) (h : (handleMove g sym mv).2.2 = some e) :
    (handleMove g sym mv).1 = g :=
  (handleMove_error_frame g sym mv (by rw [h]; simp)).1

/-- C6 witness: a move at the occupied cell 4 of `gMid` fails and leaves
the whole state (in particular `next_player`) unchanged. -/
theorem c6_failed_move_state_unchanged_witness :
    (handleMove gMid "O" ⟨"O", 4⟩).2.2 = some MoveError.cellOccupied ∧
    (handleMove gMid "O" ⟨"O", 4⟩).1 = gMid :=
  ⟨by decide,
   c6_failed_move_state_unchanged gMid "O" ⟨"O", 4⟩ MoveError.cellOccupied (by decide)⟩

/-- C7: seating assigns X if the X slot is free, else O if the O slot is
free; with both slots taken the attempt is rejected (`none`, the
resource-exhausted early return, before any `GameState` is delivered) and
the session state is completely unchanged. -/
theorem c7_seating_policy (g : SharedGame) (tx : Nat) :
    (g.player_x = none →
      (seatPlayer g tx).map (fun r => r.2.1) = some "X") ∧
    (g.player_x ≠ none → g.player_o = none →
      (seatPlayer g tx).map (fun r => r.2.1) = some "O") ∧
    (g.player_x ≠ none → g.player_o ≠ none →
      seatPlayer g tx = none ∧ seatStep g tx = g) := by
  refine ⟨?_, ?_, ?_⟩
  · intro hx
    simp [seatPlayer, hx]
  · intro hx ho
    have hx' : g.player_x.isNone = false :=
      Bool.eq_false_iff.2 fun hc => hx (Option.isNone_iff_eq_none.1 hc)
    simp [seatPlayer, hx', ho]
  · intro hx ho
    have hx' : g.player_x.isNone = false :=
      Bool.eq_false_iff.2 fun hc => hx (Option.isNone_iff_eq_none.1 hc)
    have ho' : g.player_o.isNone = false :=
      Bool.eq_false_iff.2 fun hc => ho (Option.isNone_iff_eq_none.1 hc)
    constructor
    · simp [seatPlayer, hx', ho']
    · simp [seatStep, seatPlayer, hx', ho']

/-- C7 witness: X assigned on the empty table, O assigned when only X is
seated, and a third attempt on the full table `gOng` rejected with the
state unchanged. -/
theorem c7_seating_policy_witness :
    (seatPlayer SharedGame.new 5).map (fun r => r.2.1) = some "X" ∧
    (seatPlayer (reach [Op.seat 0]) 1).map (fun r => r.2.1) = some "O" ∧
    seatPlayer gOng 7 = none ∧ seatStep gOng 7 = gOng :=
  ⟨(c7_seating_policy SharedGame.new 5).1 rfl,
   (c7_seating_policy (reach [Op.seat 0]) 1).2.1 (by decide) (by decide),
   (c7_seating_policy gOng 7).2.2 (by decide) (by decide)⟩

/-- C8: once the status is terminal (X_win, O_win or draw), every
subsequent move from anyone fails with the not-ongoing error and sends
nothing, and any sequence of subsequent moves leaves the state — in
particular the board — entirely unchanged. -/
theorem c8_terminal_freezes (g : SharedGame)
    (hterm : g.status = "X_win" ∨ g.status = "O_win" ∨ g.status = "draw") :
    (∀ sym mv, handleMove g sym mv = (g, [], some MoveError.notOngoing)) ∧
    (∀ moves : List (String × Move),
      moves.foldl (fun st p => (handleMove st p.1 p.2).1) g = g) := by
  have hno : g.status ≠ "ongoing" := by
    rcases hterm with h | h | h <;> rw [h] <;> decide
  have hone : ∀ sym mv, handleMove g sym mv = (g, [], some MoveError.notOngoing) :=
    fun sym mv => handleMove_not_ongoing g sym mv hno
  refine ⟨hone, ?_⟩
  intro moves
  induction moves with
  | nil => rfl
  | cons p rest ih =>
    simp only [List.foldl_cons]
    rw [hone p.1 p.2]
    exact ih

/-- C8 witness: concrete instantiation on the won position `gTerm`. -/
theorem c8_terminal_freezes_witness :
    (gTerm.status = "X_win" ∨ gTerm.status = "O_win" ∨ gTerm.status = "draw") ∧
    handleMove gTerm "O" ⟨"O", 5⟩ = (gTerm, [], some MoveError.notOngoing) ∧
    [(("O" : String), (⟨"O", 5⟩ : Move)), ("X", ⟨"X", 6⟩)].foldl
      (fun st p => (handleMove st p.1 p.2).1) gTerm = gTerm := by
  have h := c8_terminal_freezes gTerm (by decide)
  exact ⟨by decide, h.1 "O" ⟨"O", 5⟩, h.2 _⟩

/-- C10: the outcome of processing an inbound move depends only on the
connection's assigned symbol and the claimed position — two moves on the
same connection in the same state that differ only in `player_id` produce
identical state transitions, identical messages and identical errors. -/
theorem c10_claimed_symbol_ignored (g : SharedGame) (sym : String) (mv1 mv2 : Move)
    (h : mv1.position = mv2.position) :
    handleMove g sym mv1 = handleMove g sym mv2 := by
  cases mv1 with
  | mk p1 q1 =>
    cases mv2 with
    | mk p2 q2 =>
      have h' : q1 = q2 := h
      subst h'
      rfl

/-- C10 witness: spoofing the peer's symbol in `player_id` changes
nothing. -/
theorem c10_claimed_symbol_ignored_witness :
    (Move.mk "X" 4).position = (Move.mk "O" 4).position ∧
    handleMove gOng "X" ⟨"X", 4⟩ = handleMove gOng "X" ⟨"O", 4⟩ :=
  ⟨rfl, c10_claimed_symbol_ignored gOng "X" ⟨"X", 4⟩ ⟨"O", 4⟩ rfl⟩

lemma applyOutcome_eq (g : SharedGame) (sym : String) (pos : Nat) :
    applyOutcome g sym pos =
      (match winner (g.board.set pos sym) with
       | some w => { g with board := g.board.set pos sym, status := w ++ "_win" }
       | none =>
         if (g.board.set pos sym).all (fun c => !c.isEmpty)
         then { g with board := g.board.set pos sym, status := "draw" }
         else { g with board := g.board.set pos sym, next_player := if sym == "X" then "O" else "X" }) := rfl

/-- C3: a move that passes validation writes the mover's symbol into the
target cell, and then exactly one of the three outcomes of the source
happens: a winning triple exists and the status becomes that symbol's win
(and the winner is the mover), or the board is full and the status becomes
draw, or the turn flips to the other symbol — and only in that last case
does `next_player` change.  The hypotheses hold on every reachable
ongoing session: 9 cells and no winner yet. -/
theorem c3_successful_move_outcome (g : SharedGame) (sym : String) (mv : Move)
    (hlen : g.board.length = 9) (hnw : winner g.board = none)
    (hsucc : (handleMove g sym mv).2.2 = none) :
    MoveSuccessContract g sym mv := by
  obtain ⟨h1, h2, h3, h4, heq⟩ := handleMove_success_cases g sym mv hsucc
  have hplen : usizeOfI32 mv.position < g.board.length := by omega
  have hcell : cell (g.board.set (usizeOfI32 mv.position) sym) (usizeOfI32 mv.position) = sym :=
    cell_set_self g.board (usizeOfI32 mv.position) sym hplen
  have hg' : (handleMove g sym mv).1 = applyOutcome g sym (usizeOfI32 mv.position) := by
    rw [heq]
  simp only [MoveSuccessContract]
  rw [hg', applyOutcome_eq]
  cases hw : winner (g.board.set (usizeOfI32 mv.position) sym) with
  | some w =>
    have hws : w = sym :=
      winner_set_eq_mover g.board hlen (usizeOfI32 mv.position) sym hnw w hw
    exact ⟨rfl, hcell, Or.inl ⟨w, hw, hws, rfl, rfl⟩⟩
  | none =>
    by_cases hfp : ((g.board.set (usizeOfI32 mv.position) sym).all (fun c => !c.isEmpty)) = true
    · rw [if_pos hfp]
      exact ⟨rfl, hcell, Or.inr (Or.inl ⟨hw, hfp, rfl, rfl⟩)⟩
    · have hf : ((g.board.set (usizeOfI32 mv.position) sym).all (fun c => !c.isEmpty)) = false := by
        simpa using hfp
      rw [if_neg hfp]
      refine ⟨rfl, hcell, Or.inr (Or.inr ⟨hw, hf, h1, rfl, ?_⟩)⟩
      rw [h2]
      by_cases hx : sym = "X"
      · subst hx
        show (if (("X" : String) == "X") = true then "O" else "X") ≠ "X"
        decide
      · have hbeq : (sym == "X") = false := beq_eq_false_iff_ne.2 hx
        rw [hbeq]
        intro hc
        exact hx ((hc : "X" = sym).symm)

/-- C3 witness: X plays cell 4 on the fresh ongoing session; the move
succeeds and the flip branch of the contract holds. -/
theorem c3_successful_move_outcome_witness :
    (gOng.board.length = 9 ∧ winner gOng.board = none ∧
      (handleMove gOng "X" ⟨"X", 4⟩).2.2 = none) ∧
    MoveSuccessContract gOng "X" ⟨"X", 4⟩ :=
  ⟨⟨by decide, by decide, by decide⟩,
   c3_successful_move_outcome gOng "X" ⟨"X", 4⟩ (by decide) (by decide) (by decide)⟩

/-- C9: on every reachable session state, a connection seated into the
free X slot is immediately pushed one snapshot on its own channel carrying
its assigned symbol X and the current status, which is still waiting; a
connection seated into the free O slot (X being taken) triggers the
waiting-to-ongoing transition and the full broadcast, whose message on the
new channel carries symbol O and status ongoing (and the peer gets its
own symbol X). -/
theorem c9_first_message_carries_symbol (ops : List Op) (tx : Nat) :
    ((reach ops).player_x = none →
      seatPlayer (reach ops) tx =
        some ({ reach ops with player_x := some ⟨"X", tx⟩ }, "X",
          [(tx, ⟨List.replicate 9 "", "X", "waiting", "X"⟩)])) ∧
    (∀ px, (reach ops).player_x = some px → (reach ops).player_o = none →
      seatPlayer (reach ops) tx =
        some ({ reach ops with player_o := some ⟨"O", tx⟩, status := "ongoing" }, "O",
          [(px.tx, ⟨List.replicate 9 "", "X", "ongoing", "X"⟩),
           (tx, ⟨List.replicate 9 "", "X", "ongoing", "O"⟩)])) := by
  obtain ⟨hlen, hfree, hxs, hos⟩ := sessionInv_reach ops
  constructor
  · intro hx
    obtain ⟨hst, hb, hn⟩ := hfree (Or.inl hx)
    simp [seatPlayer, hx, mkUpdate, hst, hb, hn]
  · intro px hx ho
    obtain ⟨hst, hb, hn⟩ := hfree (Or.inr ho)
    have hpx : px.symbol = "X" := hxs px hx
    have hxne : (reach ops).player_x.isNone = false := by rw [hx]; rfl
    simp [seatPlayer, hxne, ho, broadcast, slotSend, mkUpdate, hx, hb, hn, hpx, hst]

/-- C9 witness: the first connection on the fresh table and the second
connection after it. -/
theorem c9_first_message_carries_symbol_witness :
    seatPlayer SharedGame.new 5 =
      some ({ SharedGame.new with player_x := some ⟨"X", 5⟩ }, "X",
        [(5, ⟨List.replicate 9 "", "X", "waiting", "X"⟩)]) ∧
    seatPlayer (reach [Op.seat 0]) 1 =
      some ({ reach [Op.seat 0] with player_o := some ⟨"O", 1⟩, status := "ongoing" }, "O",
        [(0, ⟨List.replicate 9 "", "X", "ongoing", "X"⟩),
         (1, ⟨List.replicate 9 "", "X", "ongoing", "O"⟩)]) :=
  ⟨(c9_first_message_carries_symbol [] 5).1 rfl,
   (c9_first_message_carries_symbol [Op.seat 0] 1).2 ⟨"X", 0⟩ (by decide) (by decide)⟩
